import Mathlib

/-!
Verification development for the MCP trading gateway repository.

The Python sources are shallowly embedded as pure Lean functions:
  * `Json` models the values produced by `json.loads` / consumed by `json.dumps`;
  * a websocket connection is a `Conn`, whose `SendBehavior` records how its
    `send` behaves (succeeds, raises `ConnectionClosed`, or raises some other
    exception with a message);
  * Python exceptions become `Except String` results;
  * the mutable registries (`website_clients`, `clients`, `pending_requests`)
    become explicit state threaded through the functions.
-/

namespace Spec2Proof

/-- A JSON value, as produced by `json.loads`. Objects keep their fields as an
association list in insertion order. Numbers are modelled as integers (no claim
depends on fractional values). -/
inductive Json where
  | null : Json
  | bool (b : Bool) : Json
  | num (n : Int) : Json
  | str (s : String) : Json
  | arr (elems : List Json) : Json
  | obj (fields : List (String × Json)) : Json
deriving Repr

/-- Python truthiness of a JSON value (`if x:`). -/
def Json.truthy : Json → Bool
  | .null => false
  | .bool b => b
  | .num n => n != 0
  | .str s => s != ""
  | .arr elems => !elems.isEmpty
  | .obj fields => !fields.isEmpty

/-- Python truthiness of a possibly-absent value (`None` is falsy). -/
def truthyOpt : Option Json → Bool
  | none => false
  | some j => j.truthy

/-- `x.get(k)` on a Python value: returns the field (or `none`) when `x` is a
dict, raises `AttributeError` otherwise. -/
def getAttr : Json → String → Except String (Option Json)
  | .obj fields, k => .ok (fields.lookup k)
  | _, _ => .error "AttributeError"

/-- `x[k]` on a Python value: `KeyError` when the key is absent from a dict,
`TypeError` when `x` is not a dict. -/
def getItem : Json → String → Except String Json
  | .obj fields, k =>
    match fields.lookup k with
    | some v => .ok v
    | none => .error "KeyError"
  | _, _ => .error "TypeError"

/-- `str(x)` for the values that end up interpolated into messages. Container
values are abbreviated; no claim depends on their exact rendering. -/
def pyStr : Json → String
  | .null => "None"
  | .bool true => "True"
  | .bool false => "False"
  | .num n => toString n
  | .str s => s
  | .arr _ => "[...]"
  | .obj _ => "{...}"

/-- How a connection's `send` behaves: succeed, raise `ConnectionClosed`, or
raise some other exception carrying a message. -/
inductive SendBehavior where
  | ok : SendBehavior
  | connClosed : SendBehavior
  | err (msg : String) : SendBehavior
deriving DecidableEq, Repr

/-- A live websocket connection held in a registry: an identity (modelling
`remote_address`) together with its send behaviour. -/
structure Conn where
  addr : Nat
  behavior : SendBehavior
deriving DecidableEq, Repr

/-- One entry of the per-peer outcome list built by
`WebsiteConnector.execute_trade`. -/
inductive TradeOutcome where
  | sent (client : Nat) : TradeOutcome
  | failed (client : Nat) (error : String) : TradeOutcome
deriving DecidableEq, Repr

/-- The `for client in self.website_clients.copy():` loop of
`WebsiteConnector.execute_trade`: iterate over the snapshot, appending a
`sent` entry on success, discarding the client from the registry (and
appending nothing) on `ConnectionClosed`, and appending a `failed` entry
(without removing the client) on any other exception. -/
def tradeLoop : List Conn → List TradeOutcome → List Conn →
    List TradeOutcome × List Conn
  | [], results, registry => (results, registry)
  | c :: rest, results, registry =>
    match c.behavior with
    | .ok => tradeLoop rest (results ++ [.sent c.addr]) registry
    | .connClosed => tradeLoop rest results (registry.erase c)
    | .err m => tradeLoop rest (results ++ [.failed c.addr m]) registry

/-- The `trade_command` payload built by `WebsiteConnector.execute_trade`
(`command["data"]`). -/
def tradeCommandData (action : String) (symbol amount : Json) (now : Int) : Json :=
  .obj [("action", .str action), ("symbol", symbol), ("amount", amount),
        ("timestamp", .num now)]

/-- `WebsiteConnector.execute_trade`: raises when the registry is empty,
otherwise fans the command out to every connected client and returns the
outcome list, the command data, and the updated registry. -/
def execute_trade (clients : List Conn) (action : String) (symbol amount : Json)
    (now : Int) : Except String (List TradeOutcome × Json × List Conn) :=
  if clients.isEmpty then
    .error "No website clients connected"
  else
    let command := tradeCommandData action symbol amount now
    let (results, registry) := tradeLoop clients [] clients
    .ok (results, command, registry)

/-- The per-client entry the claim expects `execute_trade` to record, read off
from the client's send behaviour: successful sends yield `sent`,
`ConnectionClosed` sends yield no entry, other failures yield `failed`. -/
def tradeEntry (c : Conn) : Option TradeOutcome :=
  match c.behavior with
  | .ok => some (.sent c.addr)
  | .connClosed => none
  | .err m => some (.failed c.addr m)

/-- A concrete registry used to instantiate the `execute_trade` theorems: one
healthy peer, one whose send raises `ConnectionClosed`, one whose send raises a
generic error. -/
def c1Clients : List Conn :=
  [⟨0, .ok⟩, ⟨1, .connClosed⟩, ⟨2, .err "boom"⟩]

/-- `shared.mcp_types.MCPTool`: a registered tool's discovery record. -/
structure MCPTool where
  name : String
  description : String
  inputSchema : Json

/-- `shared.mcp_types.MCPRequest` as built in
`MCPProtocolHandler.process_message`: `id` defaults to a fresh uuid (so it is
always present), `method` and `params` come straight from the decoded object
(`params` defaults to `{}`). -/
structure MCPRequest where
  id : Json
  method : Option Json
  params : Json

/-- `shared.mcp_types.MCPResponse`. -/
structure MCPResponse where
  id : Json
  result : Option Json := none
  error : Option Json := none

/-- A tool handler: receives the `arguments` value and returns the handler's
result rendered as a string, or the raised exception's message. -/
def Handler := Json → Except String String

/-- The state of `MCPProtocolHandler`: the handler dict `tools`, the discovery
list `tool_definitions`, and the optional agent-response callback. The
`clients` set is passed separately to `broadcast_notification`. -/
structure MCPProtocolHandler where
  tools : List (String × Handler)
  tool_definitions : List MCPTool
  agent_response_callback : Option (Json → Except String Unit)

/-- Python dict assignment `d[k] = v` on an association list: overwrite the
existing binding or append a new one. -/
def dictInsert {α : Type} : List (String × α) → String → α → List (String × α)
  | [], k, v => [(k, v)]
  | (k', v') :: rest, k, v =>
    if k' = k then (k, v) :: rest else (k', v') :: dictInsert rest k v

/-- `MCPProtocolHandler.__init__`. -/
def emptyHandler : MCPProtocolHandler := ⟨[], [], none⟩

/-- `MCPProtocolHandler.register_tool`: append the discovery record and store
the handler under the tool's name. -/
def register_tool (s : MCPProtocolHandler) (name description : String)
    (inputSchema : Json) (handler : Handler) : MCPProtocolHandler :=
  { s with
    tool_definitions := s.tool_definitions ++ [⟨name, description, inputSchema⟩],
    tools := dictInsert s.tools name handler }

/-- `request.method == "name"` in the dispatch chain: Python `==` against a
string literal is true only for an equal string value. -/
def methodIs (m : Option Json) (name : String) : Bool :=
  match m with
  | some (.str s) => s == name
  | _ => false

/-- `str(x)` where `x` may be `None`. -/
def pyStrOpt : Option Json → String
  | none => "None"
  | some j => pyStr j

/-- The `initialize` result payload of `handle_request`. -/
def initializeResult : Json :=
  .obj [("protocolVersion", .str "2024-11-05"),
        ("capabilities", .obj [("tools", .obj [("listChanged", .bool true)])]),
        ("serverInfo", .obj [("name", .str "mcp-trading-server"),
                             ("version", .str "1.0.0")])]

/-- The `tools/list` result payload: one `{name, description, inputSchema}`
entry per element of `tool_definitions`, in list order. -/
def toolsListResult (defs : List MCPTool) : Json :=
  .obj [("tools", .arr (defs.map fun t =>
    .obj [("name", .str t.name), ("description", .str t.description),
          ("inputSchema", t.inputSchema)]))]

/-- The `tools/call` result payload: a one-element text content array plus the
`isError` flag. -/
def toolCallContent (text : String) (isError : Bool) : Json :=
  .obj [("content", .arr [.obj [("type", .str "text"), ("text", .str text)]]),
        ("isError", .bool isError)]

/-- An error member `{code, message}`. -/
def errorBody (code : Int) (message : String) : Json :=
  .obj [("code", .num code), ("message", .str message)]

/-- `tool_name not in self.tools` / `self.tools[tool_name]`: only a string
that is a key of the handler dict resolves to a handler. -/
def lookupTool (tools : List (String × Handler)) : Option Json → Option Handler
  | some (.str n) => tools.lookup n
  | _ => none

/-- `MCPProtocolHandler.handle_request`. The `Except` layer models a Python
exception escaping the method (possible only via `request.params.get(...)`
when `params` is not a dict); handler exceptions are caught inside the
`tools/call` branch and agent-callback exceptions are caught in the
`agent_response` branch, so neither escapes. -/
def handle_request (s : MCPProtocolHandler) (req : MCPRequest) :
    Except String MCPResponse :=
  if methodIs req.method "initialize" then
    .ok ⟨req.id, some initializeResult, none⟩
  else if methodIs req.method "notifications/initialized" then
    .ok ⟨req.id, some (.obj []), none⟩
  else if methodIs req.method "tools/list" then
    .ok ⟨req.id, some (toolsListResult s.tool_definitions), none⟩
  else if methodIs req.method "tools/call" then do
    let toolName ← getAttr req.params "name"
    let arguments := (← getAttr req.params "arguments").getD (.obj [])
    match lookupTool s.tools toolName with
    | none =>
      .ok ⟨req.id, none,
           some (errorBody (-32601) ("Tool not found: " ++ pyStrOpt toolName))⟩
    | some handler =>
      match handler arguments with
      | .ok result =>
        .ok ⟨req.id, some (toolCallContent result false), none⟩
      | .error e =>
        .ok ⟨req.id,
             some (toolCallContent ("Tool execution error: " ++ e) true), none⟩
  else if methodIs req.method "agent_response" then do
    let _response := (← getAttr req.params "response").getD (.str "")
    .ok ⟨req.id, some (.obj [("status", .str "response_forwarded")]), none⟩
  else
    .ok ⟨req.id, none,
         some (errorBody (-32601)
           ("Method not found: " ++ pyStrOpt req.method))⟩

/-- An inbound frame as seen after `json.loads`: either the decoder raised
`JSONDecodeError` or it produced a JSON value. -/
inductive Inbound where
  | malformed : Inbound
  | parsed (data : Json) : Inbound

/-- What `process_message` does with a frame: either exactly one reply is sent
on the websocket, or an exception escapes `process_message` (ending the
per-connection read loop in `handle_client`). -/
inductive ProcessOutcome where
  | reply (message : Json) : ProcessOutcome
  | crash (e : String) : ProcessOutcome

/-- Serialisation of an `MCPResponse` in `process_message`: `jsonrpc` and `id`
first, then `error` if it is truthy, else `result`. -/
def responseJson (resp : MCPResponse) : Json :=
  if truthyOpt resp.error then
    .obj [("jsonrpc", .str "2.0"), ("id", resp.id),
          ("error", resp.error.getD .null)]
  else
    .obj [("jsonrpc", .str "2.0"), ("id", resp.id),
          ("result", resp.result.getD .null)]

/-- `MCPProtocolHandler.process_message`. `freshId` is the uuid generated for
`data.get("id", str(uuid.uuid4()))`. A non-object JSON value makes
`data.get` raise `AttributeError`; the `except Exception` arm then evaluates
`data.get("id")` again, which raises once more, so the exception escapes
(`crash`). For objects, a `handle_request` exception is answered with an
internal-error reply whose id is `data.get("id")` (null when absent). -/
def process_message (s : MCPProtocolHandler) (freshId : String) (m : Inbound) :
    ProcessOutcome :=
  match m with
  | .malformed =>
    .reply (.obj [("jsonrpc", .str "2.0"), ("id", .null),
                  ("error", errorBody (-32700) "Parse error")])
  | .parsed data =>
    match data with
    | .obj fields =>
      let req : MCPRequest :=
        ⟨(fields.lookup "id").getD (.str freshId), fields.lookup "method",
         (fields.lookup "params").getD (.obj [])⟩
      match handle_request s req with
      | .ok resp => .reply (responseJson resp)
      | .error e =>
        .reply (.obj [("jsonrpc", .str "2.0"),
                      ("id", (fields.lookup "id").getD .null),
                      ("error", errorBody (-32603) ("Internal error: " ++ e))])
    | _ => .crash "AttributeError"

/-- The notification frame built by `broadcast_notification` (no id). -/
def notificationJson (method : String) (params : Json) : Json :=
  .obj [("jsonrpc", .str "2.0"), ("method", .str method), ("params", params)]

/-- Observable outcome of one `broadcast_notification` call: which
(recipient, frame) deliveries happened, the registry afterwards, and the
exception that escaped the method, if any. -/
structure BroadcastResult where
  delivered : List (Nat × Json)
  registry : List Conn
  raised : Option String

/-- The `for client in self.clients.copy():` loop of
`broadcast_notification`: deliver to each client of the snapshot in turn,
discarding a client from the registry on `ConnectionClosed`. Only
`ConnectionClosed` is caught, so any other send exception propagates and
aborts the loop right there: the deliveries already made and the registry
mutations already applied stand, the remaining clients are never attempted,
and the raising client is not removed. -/
def broadcastLoop (message : Json) :
    List Conn → List (Nat × Json) → List Conn → BroadcastResult
  | [], delivered, registry => ⟨delivered, registry, none⟩
  | c :: rest, delivered, registry =>
    match c.behavior with
    | .ok => broadcastLoop message rest (delivered ++ [(c.addr, message)]) registry
    | .connClosed => broadcastLoop message rest delivered (registry.erase c)
    | .err m => ⟨delivered, registry, some m⟩

/-- `MCPProtocolHandler.broadcast_notification`, over the `clients` registry.
Returns the (recipient, frame) delivery list, the updated registry, and the
escaped exception if one was raised. -/
def broadcast_notification (clients : List Conn) (method : String)
    (params : Json) : BroadcastResult :=
  broadcastLoop (notificationJson method params) clients [] clients

/-- Rendering of the dict returned by `execute_trade` when interpolated into
the trade tools' success messages; no claim depends on its exact text. -/
def tradeResultStr (results : List TradeOutcome) (command : Json) : String :=
  toString (repr results) ++ "; " ++ pyStr command

/-- `TradingTools.buy_crypto`: reads `symbol` / `amount` / `reason` from the
arguments, raises on missing `symbol` or `amount` (Python falsiness), then
relays through `execute_trade` with action `action_mapping["buy"] =
"buy_crypto"`, wrapping any failure as "Buy order failed: ...". -/
def buy_crypto (website : List Conn) (now : Int) (params : Json) :
    Except String String := do
  let symbol ← getAttr params "symbol"
  let amount ← getAttr params "amount"
  let reason := (← getAttr params "reason").getD (.str "No reason provided")
  if !truthyOpt symbol || !truthyOpt amount then
    throw "Missing required parameters: symbol, amount"
  else if !reason.truthy then
    throw "Missing required parameter: reason"
  else
    match execute_trade website "buy_crypto" (symbol.getD .null)
        (amount.getD .null) now with
    | .error e => throw ("Buy order failed: " ++ e)
    | .ok (results, command, _registry) =>
      return "Successfully bought " ++ pyStr (amount.getD .null) ++ " USD of " ++
        pyStr (symbol.getD .null) ++ ". Reason: " ++ pyStr reason ++
        ". Result: " ++ tradeResultStr results command

/-- `TradingTools.sell_crypto`, mirroring `buy_crypto` with
`action_mapping["sell"] = "sell_crypto"`. -/
def sell_crypto (website : List Conn) (now : Int) (params : Json) :
    Except String String := do
  let symbol ← getAttr params "symbol"
  let amount ← getAttr params "amount"
  let reason := (← getAttr params "reason").getD (.str "No reason provided")
  if !truthyOpt symbol || !truthyOpt amount then
    throw "Missing required parameters: symbol, amount"
  else if !reason.truthy then
    throw "Missing required parameter: reason"
  else
    match execute_trade website "sell_crypto" (symbol.getD .null)
        (amount.getD .null) now with
    | .error e => throw ("Sell order failed: " ++ e)
    | .ok (results, command, _registry) =>
      return "Successfully sold " ++ pyStr (amount.getD .null) ++ " USD of " ++
        pyStr (symbol.getD .null) ++ ". Reason: " ++ pyStr reason ++
        ". Result: " ++ tradeResultStr results command

/-- `TradingTools.hold`: requires a truthy `reason`, then relays a
`hold` command with `symbol = None`, `amount = None`. -/
def hold (website : List Conn) (now : Int) (params : Json) :
    Except String String := do
  let reason ← getAttr params "reason"
  if !truthyOpt reason then
    throw "Missing required parameter: reason"
  else
    match execute_trade website "hold" .null .null now with
    | .error e => throw ("Hold order failed: " ++ e)
    | .ok (results, command, _registry) =>
      return "Successfully held position. Reason: " ++
        pyStr (reason.getD .null) ++ ". Result: " ++
        tradeResultStr results command

/-- The `inputSchema` registered for `buy_crypto` in
`MCPTradingServer.register_tools`: properties `crypto` and `amount`,
required `["crypto", "amount"]` — note: not `symbol`. -/
def buySchema : Json :=
  .obj [("type", .str "object"),
        ("properties", .obj [
          ("crypto", .obj [("type", .str "string"),
            ("description",
             .str "The cryptocurrency symbol to buy (e.g., BTC, ETH)")]),
          ("amount", .obj [("type", .str "number"),
            ("description", .str "The amount to buy")])]),
        ("required", .arr [.str "crypto", .str "amount"])]

/-- The `inputSchema` registered for `sell_crypto`. -/
def sellSchema : Json :=
  .obj [("type", .str "object"),
        ("properties", .obj [
          ("crypto", .obj [("type", .str "string"),
            ("description",
             .str "The cryptocurrency symbol to sell (e.g., BTC, ETH)")]),
          ("amount", .obj [("type", .str "number"),
            ("description", .str "The amount to sell")])]),
        ("required", .arr [.str "crypto", .str "amount"])]

/-- The `inputSchema` registered for `hold`. -/
def holdSchema : Json :=
  .obj [("type", .str "object"),
        ("properties", .obj [
          ("reason", .obj [("type", .str "string"),
            ("description", .str "The reasoning for holding the position")])]),
        ("required", .arr [])]

/-- `MCPTradingServer.register_tools`: registers `buy_crypto`, `sell_crypto`
and `hold` (in that order) on a fresh handler. The handlers close over the
website registry and the event-loop clock. -/
def register_tools (website : List Conn) (now : Int) : MCPProtocolHandler :=
  let s := register_tool emptyHandler "buy_crypto"
    "Execute a cryptocurrency buy order" buySchema (buy_crypto website now)
  let s := register_tool s "sell_crypto"
    "Execute a cryptocurrency sell order" sellSchema (sell_crypto website now)
  register_tool s "hold"
    "Hold current position without taking any action" holdSchema
    (hold website now)

/-- One `register_tool` call's arguments, for stating the discovery
round-trip over an arbitrary registration sequence. -/
structure ToolReg where
  name : String
  description : String
  inputSchema : Json
  handler : Handler

/-- A startup registration sequence applied to a fresh handler state. -/
def registerAll (s : MCPProtocolHandler) (regs : List ToolReg) :
    MCPProtocolHandler :=
  regs.foldl
    (fun s r => register_tool s r.name r.description r.inputSchema r.handler) s

/-- The correlator-relevant state of `MCPClient`: the readiness flag
`connected` and the keys of the `pending_requests` dict (ids whose futures
are still unresolved). -/
structure MCPClientState where
  connected : Bool
  pending : List String
deriving DecidableEq, Repr

/-- What a resolved pending future delivers to its suspended caller:
`future.set_result(...)` or `future.set_exception(...)`. -/
inductive Resolution where
  | result (v : Json) : Resolution
  | error (msg : String) : Resolution

/-- `MCPClient.process_message`: a reply whose string id is currently pending
pops that id and resolves its future (`error.message` when the `error` member
is truthy, else the `result` member, `None` when absent); if extracting
`error["message"]` raises, the exception is caught and logged — the id stays
popped but the future is never resolved. Every other frame (malformed JSON,
non-object values, unknown or absent ids, notifications) leaves the pending
map untouched and resolves nothing, without raising. -/
def client_process_message (s : MCPClientState) (m : Inbound) :
    MCPClientState × Option (String × Resolution) :=
  match m with
  | .parsed (.obj fields) =>
    match fields.lookup "id" with
    | some (.str i) =>
      if i ∈ s.pending then
        let s' : MCPClientState := { s with pending := s.pending.erase i }
        match fields.lookup "error" with
        | some e =>
          if e.truthy then
            match getItem e "message" with
            | .ok msg => (s', some (i, .error (pyStr msg)))
            | .error _ => (s', none)
          else (s', some (i, .result ((fields.lookup "result").getD .null)))
        | none => (s', some (i, .result ((fields.lookup "result").getD .null)))
      else (s, none)
    | _ => (s, none)
  | _ => (s, none)

/-- The guard and registration prefix of `MCPClient.send_request`: raises
"Not connected to MCP server" when the readiness flag is down, otherwise
registers the freshly generated id in the pending map. -/
def send_request_register (s : MCPClientState) (newId : String) :
    Except String MCPClientState :=
  if !s.connected then .error "Not connected to MCP server"
  else .ok { s with pending := s.pending ++ [newId] }

/-- The `except asyncio.TimeoutError` arm of `MCPClient.send_request`: pop the
id from the pending map and raise the timeout error handed to the caller. -/
def request_timeout (s : MCPClientState) (id : String) (method : String) :
    MCPClientState × String :=
  ({ s with pending := s.pending.erase id },
   "MCP request " ++ method ++ " timeout")

/-- The `except ConnectionClosed` arm of `MCPClient.message_handler`, reached
when the read-dispatch task terminates because the transport closed: it sets
`self.connected = False` and nothing else. -/
def message_handler_on_close (s : MCPClientState) : MCPClientState :=
  { s with connected := false }

/-- The three handshake interactions of `MCPClient.initialize`. -/
inductive HandshakeStep where
  | initReq : HandshakeStep
  | initializedNotif : HandshakeStep
  | toolsListReq : HandshakeStep
deriving DecidableEq, Repr

/-- `MCPClient.initialize`, traced: performs the `initialize` request, the
`notifications/initialized` notification and the `tools/list` request in that
order, re-raising the first request failure. The notification step cannot
fail (`send_notification` swallows every exception). -/
def initialize_steps (initReply toolsReply : Except String Json) :
    List HandshakeStep × Except String Unit :=
  match initReply with
  | .error e => ([.initReq], .error e)
  | .ok _ =>
    match toolsReply with
    | .error e => ([.initReq, .initializedNotif, .toolsListReq], .error e)
    | .ok _ => ([.initReq, .initializedNotif, .toolsListReq], .ok ())

/-- The environment's behaviour at one connection attempt: the transport
either refuses (`ConnectionRefusedError` / `OSError`) or comes up, in which
case the two handshake requests have the given outcomes. -/
inductive AttemptOutcome where
  | refuse : AttemptOutcome
  | up (initReply toolsReply : Except String Json) : AttemptOutcome

/-- Observable trace of one `connect()` call: how many attempts were made,
the back-off delays slept between them (in seconds), the handshake steps
performed, the overall outcome, and the final readiness flag. -/
structure ConnectTrace where
  attempts : Nat
  sleeps : List ℚ
  steps : List HandshakeStep
  result : Except String Unit
  connected : Bool

/-- The `for attempt in range(max_retries):` loop of `MCPClient.connect`.
A transport refusal sleeps `retry_delay` and multiplies it by 1.5 unless this
was the last attempt; a successful transport connect runs the handshake and
returns, and a handshake failure re-raises immediately (the generic
`except Exception` arm) — it is not retried. -/
def connectGo (env : Nat → AttemptOutcome) : List Nat → ℚ → ConnectTrace
  | [], _ => ⟨0, [], [], .error "unreachable", false⟩
  | attempt :: rest, retryDelay =>
    match env attempt with
    | .up initReply toolsReply =>
      match initialize_steps initReply toolsReply with
      | (steps, .ok _) => ⟨1, [], steps, .ok (), true⟩
      | (steps, .error e) => ⟨1, [], steps, .error e, false⟩
    | .refuse =>
      if rest.isEmpty then ⟨1, [], [], .error "connection failed", false⟩
      else
        let t := connectGo env rest (retryDelay * (3 / 2))
        ⟨t.attempts + 1, retryDelay :: t.sleeps, t.steps, t.result, t.connected⟩

/-- `MCPClient.connect`: `max_retries = 3`, `retry_delay = 2.0`,
`retry_delay *= 1.5` after each failed transport attempt. -/
def connect (env : Nat → AttemptOutcome) : ConnectTrace :=
  connectGo env [0, 1, 2] 2

/-- A concrete three-connection registry where exactly one send fails with
`ConnectionClosed` (the scenario named in the spec). -/
def c6Clients : List Conn := [⟨0, .ok⟩, ⟨1, .connClosed⟩, ⟨2, .ok⟩]

/-- A concrete startup registration sequence (the buy/sell/hold-shaped
example) for instantiating the discovery round-trip. -/
def c8Regs : List ToolReg :=
  [⟨"buy", "buy description", buySchema, fun _ => .ok "bought"⟩,
   ⟨"sell", "sell description", sellSchema, fun _ => .ok "sold"⟩,
   ⟨"hold", "hold description", holdSchema, fun _ => .ok "held"⟩]

/-- An environment where the transport comes up at the first attempt but the
handshake fails there, while a second attempt would have succeeded. -/
def c3FailEnv : Nat → AttemptOutcome := fun n =>
  if n = 0 then .up (.error "handshake boom") (.ok (.obj []))
  else .up (.ok (.obj [])) (.ok (.obj []))

/-- An environment where the first attempt is refused by the transport and
the second succeeds, handshake included. -/
def c3RetryEnv : Nat → AttemptOutcome := fun n =>
  if n = 0 then .refuse else .up (.ok (.obj [])) (.ok (.obj []))

theorem tradeLoop_fst (snapshot : List Conn) (results : List TradeOutcome)
    (registry : List Conn) :
    (tradeLoop snapshot results registry).1 =
      results ++ snapshot.filterMap tradeEntry := by
  induction snapshot generalizing results registry with
  | nil => simp [tradeLoop]
  | cons c rest ih =>
    cases h : c.behavior <;>
      simp [tradeLoop, h, ih, tradeEntry]

theorem tradeLoop_snd (snapshot : List Conn) (results : List TradeOutcome)
    (registry : List Conn) :
    (tradeLoop snapshot results registry).2 =
      registry.diff (snapshot.filter (fun c => c.behavior = .connClosed)) := by
  induction snapshot generalizing results registry with
  | nil => simp [tradeLoop]
  | cons c rest ih =>
    cases h : c.behavior <;>
      simp [tradeLoop, h, ih, List.diff_cons, List.filter_cons]

theorem length_filterMap_tradeEntry (clients : List Conn) :
    (clients.filterMap tradeEntry).length =
      (clients.filter (fun c => ¬ c.behavior = SendBehavior.connClosed)).length := by
  induction clients with
  | nil => rfl
  | cons c rest ih =>
    cases h : c.behavior <;> simp [tradeEntry, h, ih, List.filter_cons]

/-- C1 counterexample: with exactly one connected peer whose send raises
`ConnectionClosed`, `execute_trade` succeeds with an outcome list of 0 entries
(the claim demands exactly 1, one per peer); and with one peer whose send
raises a generic error, the outcome list records `failed` but the peer is NOT
removed from the registry (the claim says a send failure removes the peer). -/
theorem c1_counterexample :
    execute_trade [⟨0, .connClosed⟩] "buy_crypto" (.str "BTC") (.num 100) 0 =
      .ok ([], tradeCommandData "buy_crypto" (.str "BTC") (.num 100) 0, []) ∧
    execute_trade [⟨1, .err "boom"⟩] "sell_crypto" (.str "ETH") (.num 5) 0 =
      .ok ([.failed 1 "boom"],
           tradeCommandData "sell_crypto" (.str "ETH") (.num 5) 0,
           [⟨1, .err "boom"⟩]) :=
  ⟨rfl, rfl⟩

/-- C1 (amended): `execute_trade` on an empty registry fails immediately with
"No website clients connected" before any send. On a non-empty registry the
call always succeeds: each peer whose send succeeds contributes a `sent` entry
and each peer whose send raises a non-`ConnectionClosed` error contributes a
`failed` entry (in snapshot order), while a peer whose send raises
`ConnectionClosed` is removed from the registry and contributes NO entry; so
the outcome list has one entry per peer that did not fail with
`ConnectionClosed`, and only `ConnectionClosed` failures remove a peer. -/
theorem c1_execute_trade (clients : List Conn) (action : String)
    (symbol amount : Json) (now : Int) (hnd : clients.Nodup) :
    execute_trade [] action symbol amount now =
      .error "No website clients connected" ∧
    (clients ≠ [] →
      execute_trade clients action symbol amount now =
        .ok (clients.filterMap tradeEntry,
             tradeCommandData action symbol amount now,
             clients.diff
               (clients.filter (fun c => c.behavior = SendBehavior.connClosed)))) ∧
    (∀ c ∈ clients,
      c ∈ clients.diff
            (clients.filter (fun c => c.behavior = SendBehavior.connClosed)) ↔
        ¬ c.behavior = SendBehavior.connClosed) ∧
    (clients.filterMap tradeEntry).length =
      (clients.filter (fun c => ¬ c.behavior = SendBehavior.connClosed)).length := by
  refine ⟨rfl, ?_, ?_, length_filterMap_tradeEntry clients⟩
  · intro hne
    have hmt : clients.isEmpty = false := by
      cases clients with
      | nil => exact absurd rfl hne
      | cons c rest => rfl
    simp only [execute_trade, hmt, Bool.false_eq_true, if_false]
    rw [tradeLoop_fst, tradeLoop_snd]
    simp
  · intro c hc
    rw [hnd.mem_diff_iff]
    simp [hc, List.mem_filter]

/-- Witness for `c1_execute_trade` at a concrete three-peer registry. -/
theorem c1_execute_trade_witness :
    c1Clients.Nodup ∧
    (execute_trade [] "buy_crypto" (.str "BTC") (.num 100) 7 =
        .error "No website clients connected" ∧
      (c1Clients ≠ [] →
        execute_trade c1Clients "buy_crypto" (.str "BTC") (.num 100) 7 =
          .ok (c1Clients.filterMap tradeEntry,
               tradeCommandData "buy_crypto" (.str "BTC") (.num 100) 7,
               c1Clients.diff
                 (c1Clients.filter
                   (fun c => c.behavior = SendBehavior.connClosed)))) ∧
      (∀ c ∈ c1Clients,
        c ∈ c1Clients.diff
              (c1Clients.filter
                (fun c => c.behavior = SendBehavior.connClosed)) ↔
          ¬ c.behavior = SendBehavior.connClosed) ∧
      (c1Clients.filterMap tradeEntry).length =
        (c1Clients.filter
          (fun c => ¬ c.behavior = SendBehavior.connClosed)).length) :=
  ⟨by decide, c1_execute_trade c1Clients "buy_crypto" (.str "BTC") (.num 100) 7
    (by decide)⟩

/-- C7: a Tool Port frame that is not syntactically valid JSON is answered
immediately with a reply carrying the reserved parse-error code -32700 and a
null id; `process_message` returns normally (a `reply`, never a `crash`), so
the read loop in `handle_client` continues and the connection stays open. -/
theorem c7_parse_error_reply (s : MCPProtocolHandler) (freshId : String) :
    process_message s freshId .malformed =
      .reply (.obj [("jsonrpc", .str "2.0"), ("id", .null),
                    ("error", errorBody (-32700) "Parse error")]) := rfl

theorem registerAll_tool_definitions (regs : List ToolReg)
    (s : MCPProtocolHandler) :
    (registerAll s regs).tool_definitions =
      s.tool_definitions ++
        regs.map (fun r => MCPTool.mk r.name r.description r.inputSchema) := by
  induction regs generalizing s with
  | nil => simp [registerAll]
  | cons r rest ih =>
    show (registerAll
      (register_tool s r.name r.description r.inputSchema r.handler)
      rest).tool_definitions = _
    rw [ih]
    simp [register_tool]

/-- C8: a `tools/list` request against a handler that just registered a
sequence of tools at startup returns exactly the registered names with their
configured descriptions and input schemas, in registration order. -/
theorem c8_tools_list_round_trip (regs : List ToolReg) (id params : Json) :
    handle_request (registerAll emptyHandler regs)
        ⟨id, some (.str "tools/list"), params⟩ =
      .ok ⟨id,
           some (.obj [("tools", .arr (regs.map fun r =>
             .obj [("name", .str r.name),
                   ("description", .str r.description),
                   ("inputSchema", r.inputSchema)]))]),
           none⟩ := by
  have h := registerAll_tool_definitions regs emptyHandler
  show (Except.ok
      (MCPResponse.mk id
        (some (toolsListResult (registerAll emptyHandler regs).tool_definitions))
        none) : Except String MCPResponse) =
    Except.ok
      (MCPResponse.mk id
        (some (.obj [("tools", .arr (regs.map fun r =>
          .obj [("name", .str r.name),
                ("description", .str r.description),
                ("inputSchema", r.inputSchema)]))]))
        none)
  rw [h]
  simp [emptyHandler, toolsListResult, List.map_map, Function.comp]

/-- C4: `tools/call` dispatch. An unregistered tool name yields the
protocol-level not-found error (code -32601) with no result — never a domain
`isError` result. A registered handler that raises yields a protocol-level
success whose result carries `isError=true` with the exception text embedded,
and no protocol-level error. -/
theorem c4_tools_call_errors (s : MCPProtocolHandler) (id : Json)
    (pf : List (String × Json)) :
    (lookupTool s.tools (pf.lookup "name") = none →
      handle_request s ⟨id, some (.str "tools/call"), .obj pf⟩ =
        .ok ⟨id, none,
             some (errorBody (-32601)
               ("Tool not found: " ++ pyStrOpt (pf.lookup "name")))⟩) ∧
    (∀ handler emsg,
      lookupTool s.tools (pf.lookup "name") = some handler →
      handler ((pf.lookup "arguments").getD (.obj [])) = .error emsg →
      handle_request s ⟨id, some (.str "tools/call"), .obj pf⟩ =
        .ok ⟨id,
             some (toolCallContent ("Tool execution error: " ++ emsg) true),
             none⟩) := by
  constructor
  · intro hnone
    simp [handle_request, methodIs, getAttr, hnone, Bind.bind, Except.bind]
  · intro handler emsg hfind hraise
    simp [handle_request, methodIs, getAttr, hfind, hraise, Bind.bind,
      Except.bind]

/-- Witness for `c4_tools_call_errors`: against the actual server
registration, calling the unregistered tool "frobnicate" and calling the
registered tool "hold" with empty arguments (its handler raises on the
missing reason). -/
theorem c4_tools_call_errors_witness :
    handle_request (register_tools [] 0)
        ⟨.str "w", some (.str "tools/call"),
         .obj [("name", .str "frobnicate")]⟩ =
      .ok ⟨.str "w", none,
           some (errorBody (-32601) "Tool not found: frobnicate")⟩ ∧
    handle_request (register_tools [] 0)
        ⟨.str "w", some (.str "tools/call"), .obj [("name", .str "hold")]⟩ =
      .ok ⟨.str "w",
           some (toolCallContent
             "Tool execution error: Missing required parameter: reason" true),
           none⟩ := by
  constructor
  · exact (c4_tools_call_errors (register_tools [] 0) (.str "w")
      [("name", .str "frobnicate")]).1 rfl
  · exact (c4_tools_call_errors (register_tools [] 0) (.str "w")
      [("name", .str "hold")]).2 (hold [] 0)
      "Missing required parameter: reason" rfl rfl

/-- Witness for `c8_tools_list_round_trip` at the three-tool sequence. -/
theorem c8_tools_list_round_trip_witness :
    handle_request (registerAll emptyHandler c8Regs)
        ⟨.str "w", some (.str "tools/list"), .obj []⟩ =
      .ok ⟨.str "w",
           some (.obj [("tools", .arr (c8Regs.map fun r =>
             .obj [("name", .str r.name),
                   ("description", .str r.description),
                   ("inputSchema", r.inputSchema)]))]),
           none⟩ :=
  c8_tools_list_round_trip c8Regs (.str "w") (.obj [])

theorem broadcastLoop_eq (message : Json) (snapshot : List Conn)
    (delivered : List (Nat × Json)) (registry : List Conn)
    (hok : ∀ c ∈ snapshot,
      c.behavior = SendBehavior.ok ∨ c.behavior = SendBehavior.connClosed) :
    broadcastLoop message snapshot delivered registry =
      ⟨delivered ++
         (snapshot.filter (fun c => c.behavior = SendBehavior.ok)).map
           (fun c => (c.addr, message)),
       registry.diff
         (snapshot.filter (fun c => c.behavior = SendBehavior.connClosed)),
       none⟩ := by
  induction snapshot generalizing delivered registry with
  | nil => simp [broadcastLoop]
  | cons c rest ih =>
    have hc := hok c (List.mem_cons_self c rest)
    have hrest : ∀ c ∈ rest,
        c.behavior = SendBehavior.ok ∨ c.behavior = SendBehavior.connClosed :=
      fun c hc => hok c (List.mem_cons_of_mem _ hc)
    rcases hc with hc | hc <;>
      simp [broadcastLoop, hc, ih _ _ hrest, List.filter_cons, List.diff_cons]

theorem broadcastLoop_abort (message : Json) (pre : List Conn) (c : Conn)
    (post : List Conn) (m : String) (delivered : List (Nat × Json))
    (registry : List Conn)
    (hpre : ∀ x ∈ pre,
      x.behavior = SendBehavior.ok ∨ x.behavior = SendBehavior.connClosed)
    (hc : c.behavior = SendBehavior.err m) :
    broadcastLoop message (pre ++ c :: post) delivered registry =
      ⟨delivered ++
         (pre.filter (fun x => x.behavior = SendBehavior.ok)).map
           (fun x => (x.addr, message)),
       registry.diff
         (pre.filter (fun x => x.behavior = SendBehavior.connClosed)),
       some m⟩ := by
  induction pre generalizing delivered registry with
  | nil => simp [broadcastLoop, hc]
  | cons a rest ih =>
    have ha := hpre a (List.mem_cons_self a rest)
    have hrest : ∀ x ∈ rest,
        x.behavior = SendBehavior.ok ∨ x.behavior = SendBehavior.connClosed :=
      fun x hx => hpre x (List.mem_cons_of_mem _ hx)
    rcases ha with ha | ha <;>
      simp [broadcastLoop, ha, ih _ _ hrest, List.filter_cons, List.diff_cons]

/-- C6 counterexample: broadcasting over a snapshot of 3 connections where
the middle one's send raises a generic (non-`ConnectionClosed`) exception:
only the first connection receives the frame — delivery to the remaining
connection is aborted — the failing connection is NOT removed from the
registry, and the exception escapes `broadcast_notification`. The claim that
a send failure never aborts delivery to the rest and always removes the
failing connection is false. -/
theorem c6_counterexample :
    broadcast_notification [⟨0, .ok⟩, ⟨1, .err "boom"⟩, ⟨2, .ok⟩]
        "market_data" (.obj []) =
      ⟨[(0, notificationJson "market_data" (.obj []))],
       [⟨0, .ok⟩, ⟨1, .err "boom"⟩, ⟨2, .ok⟩],
       some "boom"⟩ := rfl

/-- C6 (amended): only `ConnectionClosed` send failures are tolerated by the
broadcast loop. Over a snapshot whose failures are all `ConnectionClosed`,
the send is attempted on every connection, each non-failing connection
receives the frame (in snapshot order), exactly the failing connections are
removed from the registry, and nothing is raised. But the first connection
whose send raises any other exception aborts the loop there: only the
connections before it were attempted (its `ok` predecessors received the
frame, its `ConnectionClosed` predecessors were removed), the remaining
connections receive nothing, the raising connection stays in the registry,
and the exception escapes `broadcast_notification`. -/
theorem c6_broadcast_partial_failure (clients pre post : List Conn)
    (c : Conn) (m : String) (method : String) (params : Json)
    (hnd : clients.Nodup)
    (hok : ∀ x ∈ clients,
      x.behavior = SendBehavior.ok ∨ x.behavior = SendBehavior.connClosed)
    (hpre : ∀ x ∈ pre,
      x.behavior = SendBehavior.ok ∨ x.behavior = SendBehavior.connClosed)
    (hc : c.behavior = SendBehavior.err m) :
    broadcast_notification clients method params =
      ⟨(clients.filter (fun x => x.behavior = SendBehavior.ok)).map
         (fun x => (x.addr, notificationJson method params)),
       clients.diff
         (clients.filter (fun x => x.behavior = SendBehavior.connClosed)),
       none⟩ ∧
    (∀ x ∈ clients,
      x ∈ clients.diff
            (clients.filter (fun x => x.behavior = SendBehavior.connClosed)) ↔
        ¬ x.behavior = SendBehavior.connClosed) ∧
    broadcast_notification (pre ++ c :: post) method params =
      ⟨(pre.filter (fun x => x.behavior = SendBehavior.ok)).map
         (fun x => (x.addr, notificationJson method params)),
       (pre ++ c :: post).diff
         (pre.filter (fun x => x.behavior = SendBehavior.connClosed)),
       some m⟩ ∧
    c ∈ (pre ++ c :: post).diff
          (pre.filter (fun x => x.behavior = SendBehavior.connClosed)) := by
  refine ⟨?_, ?_, ?_, ?_⟩
  · rw [broadcast_notification, broadcastLoop_eq _ _ _ _ hok]
    simp
  · intro x hx
    rw [hnd.mem_diff_iff]
    simp [hx, List.mem_filter]
  · rw [broadcast_notification, broadcastLoop_abort _ _ _ _ _ _ _ hpre hc]
    simp
  · refine List.mem_diff_of_mem (by simp) ?_
    intro hmem
    rw [List.mem_filter] at hmem
    rw [hc] at hmem
    exact SendBehavior.noConfusion (of_decide_eq_true hmem.2)

/-- Witness for `c6_broadcast_partial_failure`: the all-`ConnectionClosed`
clause at the spec's 3-connection/1-failure registry, and the abort clause at
a 3-connection snapshot whose middle send raises a generic exception. -/
theorem c6_broadcast_partial_failure_witness :
    c6Clients.Nodup ∧
    (broadcast_notification c6Clients "market_data" (.obj []) =
        ⟨(c6Clients.filter (fun x => x.behavior = SendBehavior.ok)).map
           (fun x => (x.addr, notificationJson "market_data" (.obj []))),
         c6Clients.diff
           (c6Clients.filter
             (fun x => x.behavior = SendBehavior.connClosed)),
         none⟩ ∧
      (∀ x ∈ c6Clients,
        x ∈ c6Clients.diff
              (c6Clients.filter
                (fun x => x.behavior = SendBehavior.connClosed)) ↔
          ¬ x.behavior = SendBehavior.connClosed) ∧
      broadcast_notification
          ([⟨0, .ok⟩] ++ Conn.mk 1 (.err "boom") :: [⟨2, .ok⟩])
          "market_data" (.obj []) =
        ⟨([⟨0, .ok⟩] : List Conn).filter
             (fun x => x.behavior = SendBehavior.ok) |>.map
           (fun x => (x.addr, notificationJson "market_data" (.obj []))),
         (([⟨0, .ok⟩] : List Conn) ++ Conn.mk 1 (.err "boom") ::
             ([⟨2, .ok⟩] : List Conn)).diff
           (([⟨0, .ok⟩] : List Conn).filter
             (fun x => x.behavior = SendBehavior.connClosed)),
         some "boom"⟩ ∧
      Conn.mk 1 (.err "boom") ∈
        (([⟨0, .ok⟩] : List Conn) ++ Conn.mk 1 (.err "boom") ::
            ([⟨2, .ok⟩] : List Conn)).diff
          (([⟨0, .ok⟩] : List Conn).filter
            (fun x => x.behavior = SendBehavior.connClosed))) :=
  ⟨by decide,
   c6_broadcast_partial_failure c6Clients [⟨0, .ok⟩] [⟨2, .ok⟩]
     ⟨1, .err "boom"⟩ "boom" "market_data" (.obj [])
     (by decide) (by decide) (by decide) (by decide)⟩

/-- C2 counterexample: with the readiness flag up and one pending request id,
the read-dispatch task's termination on connection close (the
`ConnectionClosed` arm of `message_handler`) flips the readiness flag to
false but retires nothing: the pending id is still pending afterwards, and no
caller has been failed with a "connection closed" error. -/
theorem c2_counterexample :
    message_handler_on_close ⟨true, ["req-1"]⟩ =
      MCPClientState.mk false ["req-1"] ∧
    (message_handler_on_close ⟨true, ["req-1"]⟩).pending ≠ [] := by
  decide

/-- C2 (amended): when the connection is detected closed, the correlator's
readiness flag becomes false, but the currently pending ids are NOT retired
and their callers are NOT failed with a "connection closed" error; each
pending caller remains pending and is only released when its own 30-second
timeout fires, which pops its id and fails it with a timeout error. -/
theorem c2_on_close_keeps_pending (s : MCPClientState) (id method : String)
    (hid : id ∈ s.pending) (hnd : s.pending.Nodup) :
    (message_handler_on_close s).connected = false ∧
    (message_handler_on_close s).pending = s.pending ∧
    id ∈ (message_handler_on_close s).pending ∧
    (request_timeout (message_handler_on_close s) id method).2 =
      "MCP request " ++ method ++ " timeout" ∧
    id ∉ (request_timeout (message_handler_on_close s) id method).1.pending := by
  refine ⟨rfl, rfl, hid, rfl, ?_⟩
  intro hmem
  rw [request_timeout] at hmem
  exact (hnd.mem_erase_iff.mp hmem).1 rfl

/-- Witness for `c2_on_close_keeps_pending` at a one-request state. -/
theorem c2_on_close_keeps_pending_witness :
    "req-1" ∈ (MCPClientState.mk true ["req-1"]).pending ∧
    ((message_handler_on_close ⟨true, ["req-1"]⟩).connected = false ∧
      (message_handler_on_close ⟨true, ["req-1"]⟩).pending = ["req-1"] ∧
      "req-1" ∈ (message_handler_on_close ⟨true, ["req-1"]⟩).pending ∧
      (request_timeout (message_handler_on_close ⟨true, ["req-1"]⟩) "req-1"
          "tools/call").2 = "MCP request " ++ "tools/call" ++ " timeout" ∧
      "req-1" ∉ (request_timeout (message_handler_on_close ⟨true, ["req-1"]⟩)
          "req-1" "tools/call").1.pending) :=
  ⟨by decide,
   c2_on_close_keeps_pending ⟨true, ["req-1"]⟩ "req-1" "tools/call"
     (by decide) (by decide)⟩

theorem cpm_not_pending (s : MCPClientState) (id : String)
    (fields : List (String × Json))
    (hid : fields.lookup "id" = some (.str id)) (hout : id ∉ s.pending) :
    client_process_message s (.parsed (.obj fields)) = (s, none) := by
  simp [client_process_message, hid, hout]

theorem cpm_pending_pops (s : MCPClientState) (id : String)
    (fields : List (String × Json))
    (hid : fields.lookup "id" = some (.str id)) (hin : id ∈ s.pending) :
    (client_process_message s (.parsed (.obj fields))).1 =
      { s with pending := s.pending.erase id } := by
  cases herr : fields.lookup "error" with
  | none => simp [client_process_message, hid, hin, herr]
  | some e =>
    by_cases ht : e.truthy
    · cases hg : getItem e "message" with
      | ok msg => simp [client_process_message, hid, hin, herr, ht, hg]
      | error err => simp [client_process_message, hid, hin, herr, ht, hg]
    · simp [client_process_message, hid, hin, herr, ht]

/-- C5: within a single correlator lifetime, every pending request resolves
at most once. A reply whose id is not currently pending is discarded without
raising; a reply for a pending id pops that id first, so a second delivery of
the same reply resolves nothing; the timeout arm pops the id and hands the
caller the timeout error exactly once, after which a late-arriving reply for
that id can no longer resolve it. -/
theorem c5_resolve_at_most_once (s : MCPClientState) (id method : String)
    (fields : List (String × Json))
    (hid : fields.lookup "id" = some (.str id)) (hnd : s.pending.Nodup) :
    (id ∉ s.pending →
      client_process_message s (.parsed (.obj fields)) = (s, none)) ∧
    (id ∈ s.pending →
      (client_process_message s (.parsed (.obj fields))).1.pending =
          s.pending.erase id ∧
        id ∉ (client_process_message s (.parsed (.obj fields))).1.pending ∧
        client_process_message
            (client_process_message s (.parsed (.obj fields))).1
            (.parsed (.obj fields)) =
          ((client_process_message s (.parsed (.obj fields))).1, none)) ∧
    (id ∉ (request_timeout s id method).1.pending ∧
      (request_timeout s id method).2 =
        "MCP request " ++ method ++ " timeout" ∧
      client_process_message (request_timeout s id method).1
          (.parsed (.obj fields)) =
        ((request_timeout s id method).1, none)) := by
  have herase : id ∉ s.pending.erase id := by
    intro hmem
    exact (hnd.mem_erase_iff.mp hmem).1 rfl
  refine ⟨fun hout => cpm_not_pending s id fields hid hout, fun hin => ?_, ?_⟩
  · have h1 := cpm_pending_pops s id fields hid hin
    have h2 : id ∉ (client_process_message s (.parsed (.obj fields))).1.pending := by
      rw [h1]
      exact herase
    exact ⟨by rw [h1], h2,
      cpm_not_pending (client_process_message s (.parsed (.obj fields))).1
        id fields hid h2⟩
  · refine ⟨herase, rfl, cpm_not_pending _ id fields hid herase⟩

/-- Witness for `c5_resolve_at_most_once`: a two-request state and a reply
frame for the first id. -/
theorem c5_resolve_at_most_once_witness :
    ([("id", Json.str "a"), ("result", Json.num 1)].lookup "id" =
        some (Json.str "a")) ∧
    (MCPClientState.mk true ["a", "b"]).pending.Nodup ∧
    (("a" ∉ (MCPClientState.mk true ["a", "b"]).pending →
      client_process_message ⟨true, ["a", "b"]⟩
          (.parsed (.obj [("id", .str "a"), ("result", .num 1)])) =
        (⟨true, ["a", "b"]⟩, none)) ∧
    ("a" ∈ (MCPClientState.mk true ["a", "b"]).pending →
      (client_process_message ⟨true, ["a", "b"]⟩
          (.parsed (.obj [("id", .str "a"), ("result", .num 1)]))).1.pending =
          ["a", "b"].erase "a" ∧
        "a" ∉ (client_process_message ⟨true, ["a", "b"]⟩
          (.parsed (.obj [("id", .str "a"), ("result", .num 1)]))).1.pending ∧
        client_process_message
            (client_process_message ⟨true, ["a", "b"]⟩
              (.parsed (.obj [("id", .str "a"), ("result", .num 1)]))).1
            (.parsed (.obj [("id", .str "a"), ("result", .num 1)])) =
          ((client_process_message ⟨true, ["a", "b"]⟩
            (.parsed (.obj [("id", .str "a"), ("result", .num 1)]))).1, none)) ∧
    ("a" ∉ (request_timeout ⟨true, ["a", "b"]⟩ "a" "initialize").1.pending ∧
      (request_timeout ⟨true, ["a", "b"]⟩ "a" "initialize").2 =
        "MCP request " ++ "initialize" ++ " timeout" ∧
      client_process_message (request_timeout ⟨true, ["a", "b"]⟩ "a"
          "initialize").1
          (.parsed (.obj [("id", .str "a"), ("result", .num 1)])) =
        ((request_timeout ⟨true, ["a", "b"]⟩ "a" "initialize").1, none))) :=
  ⟨rfl, by decide,
   c5_resolve_at_most_once ⟨true, ["a", "b"]⟩ "a" "initialize"
     [("id", .str "a"), ("result", .num 1)] rfl (by decide)⟩

/-- C3 counterexample: when the `initialize` handshake request fails on the
first attempt, `connect` raises immediately after that single attempt, with
no backoff sleep and no retry — even though the environment would let a
second attempt succeed. The claim that a handshake failure is retried under
the same backoff policy is false. -/
theorem c3_counterexample :
    connect c3FailEnv =
      ⟨1, [], [.initReq], .error "handshake boom", false⟩ ∧
    c3FailEnv 1 = .up (.ok (.obj [])) (.ok (.obj [])) :=
  ⟨rfl, rfl⟩

/-- C3 (amended): `connect()` makes at most 3 attempts, sleeping the prefix
of [2, 3] seconds determined by the attempt count between transport failures
(base delay 2.0, multiplied by 1.5 after each failed attempt); a successful
`connect` performed the full `initialize` → `notifications/initialized` →
`tools/list` handshake before the readiness flag went up; transport-level
failures (connection refused / OS errors) are retried under this backoff, but
a failure at any handshake step makes `connect` raise immediately after a
single attempt — it is NOT retried. -/
theorem c3_connect_backoff (env : Nat → AttemptOutcome) :
    (connect env).attempts ≤ 3 ∧
    (connect env).sleeps = List.take ((connect env).attempts - 1) [2, 3] ∧
    ((connect env).result = .ok () →
      (connect env).steps = [.initReq, .initializedNotif, .toolsListReq] ∧
      (connect env).connected = true) ∧
    (∀ ir tr e, env 0 = .up ir tr →
      (initialize_steps ir tr).2 = .error e →
      connect env = ⟨1, [], (initialize_steps ir tr).1, .error e, false⟩) ∧
    (∀ ir tr, env 0 = .refuse → env 1 = .up ir tr →
      (initialize_steps ir tr).2 = .ok () →
      connect env = ⟨2, [2], (initialize_steps ir tr).1, .ok (), true⟩) := by
  refine ⟨?_, ?_, ?_, ?_, ?_⟩
  · rcases h0 : env 0 with _ | ⟨ir, tr⟩
    · rcases h1 : env 1 with _ | ⟨ir, tr⟩
      · rcases h2 : env 2 with _ | ⟨ir, tr⟩
        · norm_num [connect, connectGo, h0, h1, h2]
        · rcases ir with e | v <;> rcases tr with e' | v' <;>
            norm_num [connect, connectGo, h0, h1, h2, initialize_steps]
      · rcases ir with e | v <;> rcases tr with e' | v' <;>
          norm_num [connect, connectGo, h0, h1, initialize_steps]
    · rcases ir with e | v <;> rcases tr with e' | v' <;>
        norm_num [connect, connectGo, h0, initialize_steps]
  · rcases h0 : env 0 with _ | ⟨ir, tr⟩
    · rcases h1 : env 1 with _ | ⟨ir, tr⟩
      · rcases h2 : env 2 with _ | ⟨ir, tr⟩
        · norm_num [connect, connectGo, h0, h1, h2]
        · rcases ir with e | v <;> rcases tr with e' | v' <;>
            norm_num [connect, connectGo, h0, h1, h2, initialize_steps]
      · rcases ir with e | v <;> rcases tr with e' | v' <;>
          norm_num [connect, connectGo, h0, h1, initialize_steps]
    · rcases ir with e | v <;> rcases tr with e' | v' <;>
        norm_num [connect, connectGo, h0, initialize_steps]
  · rcases h0 : env 0 with _ | ⟨ir, tr⟩
    · rcases h1 : env 1 with _ | ⟨ir, tr⟩
      · rcases h2 : env 2 with _ | ⟨ir, tr⟩
        · norm_num [connect, connectGo, h0, h1, h2]
          exact fun h => Except.noConfusion h
        · rcases ir with e | v <;> rcases tr with e' | v' <;>
            norm_num [connect, connectGo, h0, h1, h2, initialize_steps] <;>
            exact fun h => Except.noConfusion h
      · rcases ir with e | v <;> rcases tr with e' | v' <;>
          norm_num [connect, connectGo, h0, h1, initialize_steps] <;>
          exact fun h => Except.noConfusion h
    · rcases ir with e | v <;> rcases tr with e' | v' <;>
        norm_num [connect, connectGo, h0, initialize_steps] <;>
        exact fun h => Except.noConfusion h
  · intro ir tr e h0 hfail
    rcases hsteps : initialize_steps ir tr with ⟨steps, res⟩
    have hres : res = .error e := by
      have := hfail
      rw [hsteps] at this
      exact this
    subst hres
    simp [connect, connectGo, h0, hsteps]
  · intro ir tr h0 h1 hok
    rcases hsteps : initialize_steps ir tr with ⟨steps, res⟩
    have hres : res = .ok () := by
      have := hok
      rw [hsteps] at this
      exact this
    subst hres
    norm_num [connect, connectGo, h0, h1, hsteps]

/-- Witness for `c3_connect_backoff`: the bound and backoff facts at the
retrying environment, the success-path handshake facts, and the
retried-transport-failure clause, all at concrete environments. -/
theorem c3_connect_backoff_witness :
    (connect c3RetryEnv).attempts ≤ 3 ∧
    (connect c3RetryEnv).sleeps =
      List.take ((connect c3RetryEnv).attempts - 1) [2, 3] ∧
    connect c3RetryEnv =
      ⟨2, [2], [.initReq, .initializedNotif, .toolsListReq], .ok (), true⟩ ∧
    (connect c3RetryEnv).steps =
      [.initReq, .initializedNotif, .toolsListReq] ∧
    (connect c3RetryEnv).connected = true ∧
    connect c3FailEnv =
      ⟨1, [], [.initReq], .error "handshake boom", false⟩ := by
  have hmain := c3_connect_backoff c3RetryEnv
  have hretry := hmain.2.2.2.2 (.ok (.obj [])) (.ok (.obj [])) rfl rfl rfl
  have hsucc := hmain.2.2.1 (by rw [hretry])
  have hfail := (c3_connect_backoff c3FailEnv).2.2.2.1
    (.error "handshake boom") (.ok (.obj [])) "handshake boom" rfl rfl
  refine ⟨hmain.1, hmain.2.1, ?_, hsucc.1, hsucc.2, ?_⟩
  · rw [hretry]; rfl
  · rw [hfail]; rfl

/-- C9: the schemas registered for `buy_crypto` and `sell_crypto` advertise
required keys `["crypto", "amount"]`, but the handlers read the parameter
`"symbol"`; hence for every `tools/call` whose arguments carry exactly the
advertised required keys (and so no `"symbol"`), the handler raises
"Missing required parameters: symbol, amount" and the reply is a
protocol-level success whose result has `isError=true` with that text
embedded — no call conforming to the published schema can ever succeed. -/
theorem c9_schema_handler_mismatch (website : List Conn) (now : Int)
    (id cval aval : Json) :
    getItem buySchema "required" = .ok (.arr [.str "crypto", .str "amount"]) ∧
    getItem sellSchema "required" = .ok (.arr [.str "crypto", .str "amount"]) ∧
    buy_crypto website now (.obj [("crypto", cval), ("amount", aval)]) =
      .error "Missing required parameters: symbol, amount" ∧
    sell_crypto website now (.obj [("crypto", cval), ("amount", aval)]) =
      .error "Missing required parameters: symbol, amount" ∧
    handle_request (register_tools website now)
        ⟨id, some (.str "tools/call"),
         .obj [("name", .str "buy_crypto"),
               ("arguments", .obj [("crypto", cval), ("amount", aval)])]⟩ =
      .ok ⟨id,
           some (toolCallContent
             "Tool execution error: Missing required parameters: symbol, amount"
             true),
           none⟩ ∧
    handle_request (register_tools website now)
        ⟨id, some (.str "tools/call"),
         .obj [("name", .str "sell_crypto"),
               ("arguments", .obj [("crypto", cval), ("amount", aval)])]⟩ =
      .ok ⟨id,
           some (toolCallContent
             "Tool execution error: Missing required parameters: symbol, amount"
             true),
           none⟩ :=
  ⟨rfl, rfl, rfl, rfl, rfl, rfl⟩

theorem handle_request_id (s : MCPProtocolHandler) (req : MCPRequest)
    (resp : MCPResponse) (h : handle_request s req = .ok resp) :
    resp.id = req.id := by
  unfold handle_request at h
  simp only [Bind.bind, Except.bind] at h
  repeat' split at h
  all_goals first
    | (obtain rfl := Except.ok.inj h; rfl)
    | simp at h

/-- C10 counterexample: the frame `[1]` is syntactically valid JSON, yet it
is answered with NO reply: `data.get` raises `AttributeError` (twice, the
second time inside the `except` arm), the exception escapes
`process_message`, and the per-connection read loop ends. The claim that
every syntactically valid JSON message is answered with exactly one reply is
false. -/
theorem c10_counterexample :
    process_message emptyHandler "fresh-uuid" (.parsed (.arr [.num 1])) =
      .crash "AttributeError" := rfl

/-- C10 (amended): every syntactically valid JSON OBJECT received on the Tool
Port is answered with exactly one reply, and when the object carries no "id"
field and dispatch produces a response, the reply's id is the freshly
generated UUID — the sender of an id-less notification receives a reply whose
id it never issued. A syntactically valid NON-object JSON value, however, is
answered with no reply at all: `process_message` raises `AttributeError` and
the connection's read loop ends. -/
theorem c10_fresh_id_reply (s : MCPProtocolHandler) (freshId : String)
    (fields : List (String × Json)) (data : Json) :
    (∃ r, process_message s freshId (.parsed (.obj fields)) = .reply r) ∧
    (fields.lookup "id" = none →
      ∀ resp,
        handle_request s
            ⟨.str freshId, fields.lookup "method",
             (fields.lookup "params").getD (.obj [])⟩ = .ok resp →
        process_message s freshId (.parsed (.obj fields)) =
          .reply (responseJson resp) ∧
        resp.id = .str freshId) ∧
    ((∀ fs, data ≠ .obj fs) →
      process_message s freshId (.parsed data) = .crash "AttributeError") := by
  refine ⟨?_, ?_, ?_⟩
  · cases hh : handle_request s
        ⟨(fields.lookup "id").getD (.str freshId), fields.lookup "method",
         (fields.lookup "params").getD (.obj [])⟩ with
    | ok resp =>
      exact ⟨responseJson resp, by simp [process_message, hh]⟩
    | error e =>
      exact ⟨.obj [("jsonrpc", .str "2.0"),
                   ("id", (fields.lookup "id").getD .null),
                   ("error", errorBody (-32603) ("Internal error: " ++ e))],
             by simp [process_message, hh]⟩
  · intro hid resp hresp
    have hreq : (fields.lookup "id").getD (Json.str freshId) = .str freshId := by
      rw [hid]; rfl
    constructor
    · simp [process_message, hreq, hresp]
    · have := handle_request_id _ _ _ hresp
      simpa using this
  · intro hno
    cases data with
    | obj fs => exact absurd rfl (hno fs)
    | null => rfl
    | bool b => rfl
    | num n => rfl
    | str s => rfl
    | arr elems => rfl

/-- Witness for `c10_fresh_id_reply`: an id-less `tools/list` notification
frame is answered with a reply whose id is the generated UUID, and the
non-object frame `[1]` crashes the handler. -/
theorem c10_fresh_id_reply_witness :
    (∃ r, process_message emptyHandler "u1"
        (.parsed (.obj [("method", Json.str "tools/list")])) = .reply r) ∧
    (process_message emptyHandler "u1"
        (.parsed (.obj [("method", Json.str "tools/list")])) =
      .reply (responseJson ⟨.str "u1", some (toolsListResult []), none⟩) ∧
      (MCPResponse.mk (.str "u1") (some (toolsListResult [])) none).id =
        .str "u1") ∧
    process_message emptyHandler "u1" (.parsed (.arr [.num 1])) =
      .crash "AttributeError" := by
  have h := c10_fresh_id_reply emptyHandler "u1"
    [("method", .str "tools/list")] (.arr [.num 1])
  exact ⟨h.1,
    h.2.1 rfl ⟨.str "u1", some (toolsListResult []), none⟩ rfl,
    h.2.2 (fun fs hf => Json.noConfusion hf)⟩

/-- Witness for `c7_parse_error_reply` at a concrete handler state. -/
theorem c7_parse_error_reply_witness :
    process_message (register_tools [] 0) "u7" .malformed =
      .reply (.obj [("jsonrpc", .str "2.0"), ("id", .null),
                    ("error", errorBody (-32700) "Parse error")]) :=
  c7_parse_error_reply (register_tools [] 0) "u7"

/-- Witness for `c9_schema_handler_mismatch` at a concrete schema-conforming
call (`crypto = "BTC"`, `amount = 100`). -/
theorem c9_schema_handler_mismatch_witness :
    buy_crypto [] 0 (.obj [("crypto", .str "BTC"), ("amount", .num 100)]) =
      .error "Missing required parameters: symbol, amount" ∧
    handle_request (register_tools [] 0)
        ⟨.str "w", some (.str "tools/call"),
         .obj [("name", .str "buy_crypto"),
               ("arguments",
                .obj [("crypto", .str "BTC"), ("amount", .num 100)])]⟩ =
      .ok ⟨.str "w",
           some (toolCallContent
             "Tool execution error: Missing required parameters: symbol, amount"
             true),
           none⟩ := by
  have h := c9_schema_handler_mismatch [] 0 (.str "w") (.str "BTC") (.num 100)
  exact ⟨h.2.2.1, h.2.2.2.2.1⟩

end Spec2Proof
